import Mathlib

/-!
Verification development for the marine-terminal repository.

This file gives a shallow embedding, in Lean 4, of the parts of the Go
source that the specification claims are about:

* the Bubble Tea reducer `Model.Update` of src/internal/ui/model.go,
  together with its message and payload types;
* the geospatial nearest-entity lookups `getNearbyMarineZonesFromDB`
  (src/unnamed/part_016, package zonelookup) and `FindNearbyStations`
  (src/internal/stations/repository.go), including the haversine
  distance function `HaversineDistance`;
* the provisioning pipelines `ProvisionDatabase`
  (src/internal/zonelookup/provision.go) and
  `ProvisionZipcodeDatabaseWithProgress`
  (src/internal/geocoding/provision.go), with the row-write scripts of
  `buildDatabase` and `buildZipcodeDatabase` modelled as explicit
  database-operation scripts so that transactional visibility of
  interrupted runs can be stated;
* the saved-port upsert `SavePort` (src/internal/ports/repository.go)
  against the user_ports table whose `name` column carries a unique
  index (database.EnsureUserSchema).

Modelling conventions: Go float64 becomes ℝ (trigonometry is involved,
so exact rationals are not enough); time.Time becomes ℤ (an opaque
timestamp; the reducer and repository never inspect it except for the
IsZero test in SavePort, which becomes a comparison with 0); Go errors
become `Option String` carrying the message, or a structured error
type where the error value itself is program logic; SQL tables become
lists of row structures in insertion order; Go nil pointers become
`Option`.  External I/O (HTTP fetches, file downloads, the SQLite
driver itself) is outside the model: the lookup and provisioning
functions are modelled on their success path over an explicit
in-memory table, exactly mirroring the row-level logic of the source.
-/

/-! ## Reducer data model (src/internal/ui/model.go, src/internal/models) -/

/-- AppState of src/internal/ui/model.go: the current state of the
application.  Constructor order mirrors the Go iota order
(Search = 0, ZoneList = 1, Loading = 2, Display = 3, Provisioning = 4,
Error = 5). -/
inductive AppState where
  | StateSearch
  | StateZoneList
  | StateLoading
  | StateDisplay
  | StateProvisioning
  | StateError
deriving DecidableEq, Repr

/-- ActivePane of src/internal/ui/model.go: which pane is focused. -/
inductive ActivePane where
  | PaneWeather
  | PaneTides
deriving DecidableEq, Repr

/-- models.WindData: wind conditions in marine format. -/
structure WindData where
  Direction : String
  SpeedMin : ℝ
  SpeedMax : ℝ
  GustSpeed : ℝ
  HasGust : Bool
  RawText : String

/-- models.WaveComponent: a single wave/swell component. -/
structure WaveComponent where
  Direction : String
  Height : ℝ
  Period : ℤ

/-- models.SeaState: overall sea conditions. -/
structure SeaState where
  HeightMin : ℝ
  HeightMax : ℝ
  Components : List WaveComponent
  RawText : String

/-- models.MarineConditions: current marine weather conditions.  The
reducer stores and forwards this value without inspecting it. -/
structure MarineConditions where
  Location : String
  Temperature : ℝ
  Conditions : String
  Wind : WindData
  Seas : SeaState
  Visibility : ℝ
  Pressure : ℝ
  UpdatedAt : ℤ

/-- models.MarineForecast: one forecast period. -/
structure MarineForecast where
  Date : ℤ
  DayOfWeek : String
  PeriodName : String
  Conditions : String
  Wind : WindData
  Seas : SeaState
  Temperature : ℝ
  RawText : String

/-- models.ThreeDayForecast: forecast periods for the next days. -/
structure ThreeDayForecast where
  Periods : List MarineForecast
  UpdatedAt : ℤ

/-- models.Alert: a NOAA weather or marine alert.  Severity, urgency
and certainty are string-typed in the source (AlertSeverity is a
string type). -/
structure Alert where
  ID : String
  Event : String
  Headline : String
  Description : String
  Severity : String
  Urgency : String
  Certainty : String
  Onset : ℤ
  Expires : ℤ
  Areas : List String
  Instruction : String

/-- models.AlertData: all active alerts for a location. -/
structure AlertData where
  Alerts : List Alert
  UpdatedAt : ℤ

/-- models.TideEvent: a single high or low tide occurrence; the Type
field of the source (a TideType string) is named tideType here because
Type is reserved in Lean. -/
structure TideEvent where
  Time : ℤ
  tideType : String
  Height : ℝ

/-- models.TideData: tide predictions for a location. -/
structure TideData where
  StationID : String
  StationName : String
  Events : List TideEvent
  UpdatedAt : ℤ

/-- geocoding.Location: a geocoded location. -/
structure Location where
  Latitude : ℝ
  Longitude : ℝ
  Name : String

/-- zonelookup.ZoneInfo: a marine zone with its distance in miles from
a point. -/
structure ZoneInfo where
  Code : String
  Name : String
  Distance : ℝ

/-- stations.TideStationInfo: a tide station with its distance in
miles from a point. -/
structure TideStationInfo where
  ID : String
  Name : String
  State : String
  Latitude : ℝ
  Longitude : ℝ
  Distance : ℝ

/-- Keyboard messages (tea.KeyMsg) restricted to the kinds the reducer
distinguishes: Enter, Esc, Tab, Shift+Tab, Ctrl+C, Backspace and plain
runes. -/
inductive Key where
  | enter
  | esc
  | tab
  | shiftTab
  | ctrlC
  | backspace
  | char (c : Char)
deriving DecidableEq, Repr

/-- Quit check of Model.Update: keyMsg.String() equal to ctrl+c or q. -/
def Key.isQuit : Key → Bool
  | .ctrlC => true
  | .char c => c = 'q'
  | _ => false

/-- Commands issued by the reducer (tea.Cmd values built in
src/internal/ui/zone_messages.go and model.go).  Each constructor
records the background unit of work the command would start; blink is
textinput.Blink and spinnerTick is the spinner tick. -/
inductive Cmd where
  | none
  | quit
  | blink
  | spinnerTick
  | batch (cmds : List Cmd)
  | geocodeLocation (query : String)
  | findNearbyZones (lat lon : ℝ)
  | findNearestTideStation (lat lon : ℝ)
  | fetchTideData (stationID : String)
  | fetchZoneWeather (zoneCode : String)
  | fetchZoneAlerts (zoneCode : String)

/-- Messages consumed by Model.Update (src/internal/ui/zone_messages.go).
Fetch results carry their payload plus an optional error message; a
payload that is a Go pointer which can be nil on a partial success is
an Option here.  The geocode and direct-load messages carry their
payload bare because the success branch of the reducer dereferences
the pointer unconditionally.  Window-size, spinner and provisioning
messages are not modelled; no claim mentions them. -/
inductive Msg where
  | errMsg (err : String)
  | geocodeMsg (location : Location) (err : Option String)
  | tideStationFoundMsg (stations : List TideStationInfo) (err : Option String)
  | tideDataFetchedMsg (tides : Option TideData) (conditions : Option MarineConditions)
      (err : Option String)
  | zonesFoundMsg (zones : List ZoneInfo) (err : Option String)
  | zoneWeatherFetchedMsg (conditions : Option MarineConditions)
      (forecast : Option ThreeDayForecast) (err : Option String)
  | zoneAlertsFetchedMsg (alerts : Option AlertData) (err : Option String)
  | directLoadStationMsg (zone : ZoneInfo) (err : Option String)
  | key (k : Key)

/-- Model of src/internal/ui/model.go: the reducer-owned application
state.  The text input widget is modelled by its string value, and the
zone list widget by its items plus cursor index (list.Model.SelectedItem
returns the item under the cursor).  Fields that only affect rendering
(width, height, charts, spinner, styles) and the provisioning channel
handle are omitted; no reducer branch that a claim mentions reads
them. -/
structure Model where
  state : AppState
  activePane : ActivePane
  err : Option String
  searchInput : String
  searchQuery : String
  location : Option Location
  zones : List ZoneInfo
  zoneListItems : List ZoneInfo
  zoneListIndex : ℕ
  selectedZone : Option ZoneInfo
  tideStations : List TideStationInfo
  tideStation : Option TideStationInfo
  weather : Option MarineConditions
  forecast : Option ThreeDayForecast
  alerts : Option AlertData
  tides : Option TideData
  tideConditions : Option MarineConditions
  loadingWeather : Bool
  loadingAlerts : Bool
  loadingTides : Bool
  initialStationCode : String

/-- NewModel of src/internal/ui/model.go: initial state StateSearch,
weather pane active, everything empty. -/
def NewModel (initialStationCode : String) : Model where
  state := .StateSearch
  activePane := .PaneWeather
  err := none
  searchInput := ""
  searchQuery := ""
  location := none
  zones := []
  zoneListItems := []
  zoneListIndex := 0
  selectedZone := none
  tideStations := []
  tideStation := none
  weather := none
  forecast := none
  alerts := none
  tides := none
  tideConditions := none
  loadingWeather := false
  loadingAlerts := false
  loadingTides := false
  initialStationCode := initialStationCode

/-- Value-level behaviour of the textinput widget for the keys the
model forwards to it: runes append to the value, backspace removes the
last character, other keys leave it unchanged. -/
def textInputUpdate (value : String) (k : Key) : String :=
  match k with
  | .char c => value.push c
  | .backspace => value.dropRight 1
  | _ => value

/-- handleSearchInput of src/internal/ui/model.go: clears a pending
error on any key but Enter, ignores Enter on an empty query, and on a
non-empty query records it, moves to StateLoading and dispatches the
geocode command. -/
def Model.handleSearchInput (m : Model) (k : Key) : Model × Cmd :=
  let m := if m.err ≠ none ∧ k ≠ .enter then { m with err := none } else m
  if k = .enter then
    let query := m.searchInput
    if query = "" then
      (m, .none)
    else
      ({ m with searchQuery := query, err := none, state := .StateLoading },
        .geocodeLocation query)
  else
    ({ m with searchInput := textInputUpdate m.searchInput k }, .none)

/-- handleZoneList of src/internal/ui/model.go: Enter selects the zone
under the cursor, moves to StateLoading with both loading flags set,
clears the old weather, forecast and alert data, and dispatches the
weather plus alerts batch; the s key or Esc returns to StateSearch.
Cursor movement is the list widget and is not modelled. -/
def Model.handleZoneList (m : Model) (k : Key) : Model × Cmd :=
  if k = .enter then
    match m.zoneListItems[m.zoneListIndex]? with
    | some item =>
      ({ m with selectedZone := some item, state := .StateLoading,
                loadingWeather := true, loadingAlerts := true,
                weather := none, forecast := none, alerts := none },
        .batch [.fetchZoneWeather item.Code, .fetchZoneAlerts item.Code])
    | none => (m, .none)
  else if k = .char 's' ∨ k = .esc then
    ({ m with state := .StateSearch }, .blink)
  else
    (m, .none)

/-- Update of src/internal/ui/model.go: the reducer.  One message in,
new model plus command out.  Every branch mirrors the corresponding
case of the Go switch; the error strings match the fmt.Errorf format
strings of the source (with \x27 for the single quote character). -/
def Model.Update (m : Model) (msg : Msg) : Model × Cmd :=
  match msg with
  | .errMsg e =>
    ({ m with err := some e, state := .StateError }, .none)
  | .geocodeMsg location err =>
    match err with
    | some e =>
      ({ m with err := some ("geocoding failed: " ++ e), state := .StateError }, .none)
    | none =>
      ({ m with location := some location },
        .batch [.findNearbyZones location.Latitude location.Longitude,
                .findNearestTideStation location.Latitude location.Longitude])
  | .tideStationFoundMsg stations err =>
    match err, stations with
    | none, s :: rest =>
      ({ m with tideStations := s :: rest, tideStation := some s, loadingTides := true },
        .fetchTideData s.ID)
    | some _, _ =>
      ({ m with tideStation := none, tideStations := [] }, .none)
    | none, [] => (m, .none)
  | .tideDataFetchedMsg tides conditions err =>
    let m := { m with loadingTides := false }
    match err with
    | some _ => (m, .none)
    | none =>
      ({ m with tides := tides, tideConditions := conditions }, .none)
  | .zonesFoundMsg zones err =>
    match err with
    | some e =>
      ({ m with err := some ("finding zones failed: " ++ e), state := .StateError }, .none)
    | none =>
      if zones.isEmpty then
        ({ m with err := some ("no marine zones found near \x27" ++ m.searchQuery ++ "\x27"),
                  state := .StateError }, .none)
      else
        ({ m with zones := zones, zoneListItems := zones, zoneListIndex := 0,
                  state := .StateZoneList }, .none)
  | .zoneWeatherFetchedMsg conditions forecast err =>
    let m := { m with loadingWeather := false }
    let m :=
      match err with
      | some _ => m
      | none => { m with weather := conditions, forecast := forecast }
    (if m.state ≠ .StateDisplay then { m with state := .StateDisplay } else m, .none)
  | .zoneAlertsFetchedMsg alerts err =>
    let m := { m with loadingAlerts := false }
    let m :=
      match err with
      | some _ => m
      | none => { m with alerts := alerts }
    (if m.state ≠ .StateDisplay then { m with state := .StateDisplay } else m, .none)
  | .directLoadStationMsg zone err =>
    match err with
    | some e =>
      ({ m with err := some ("failed to load station \x27" ++ m.initialStationCode
                             ++ "\x27: " ++ e),
                state := .StateError }, .none)
    | none =>
      ({ m with selectedZone := some zone, state := .StateLoading,
                loadingWeather := true, loadingAlerts := true },
        .batch [.fetchZoneWeather zone.Code, .fetchZoneAlerts zone.Code])
  | .key k =>
    if k.isQuit then
      (m, .quit)
    else
      match m.state with
      | .StateSearch => m.handleSearchInput k
      | .StateZoneList => m.handleZoneList k
      | .StateDisplay =>
        if k = .char 's' then
          ({ m with state := .StateSearch, searchInput := "",
                    selectedZone := none, weather := none, forecast := none,
                    alerts := none, location := none, zones := [] },
            .blink)
        else if k = .tab ∨ k = .shiftTab then
          ({ m with activePane :=
              if m.activePane = .PaneWeather then .PaneTides else .PaneWeather }, .none)
        else
          (m, .none)
      | .StateError =>
        ({ m with state := .StateSearch, err := none }, .blink)
      | _ => (m, .none)

/-! ## Geospatial index rows and haversine distance
(src/unnamed/part_016, src/internal/stations/repository.go) -/

/-- Row of the marine_zones table as selected by the zone lookup query
(zone_code, zone_name, center_lat, center_lon). -/
structure ZoneRow where
  zoneCode : String
  zoneName : String
  centerLat : ℝ
  centerLon : ℝ

/-- Row of the tide_stations table as selected by the station lookup
query (id, name, state, latitude, longitude). -/
structure StationRow where
  id : String
  name : String
  state : String
  latitude : ℝ
  longitude : ℝ

/-- Real-number semantics of math.Atan2(y, x): the angle of the point
(x, y), in (-pi, pi]. -/
noncomputable def atan2 (y x : ℝ) : ℝ :=
  if 0 < x then Real.arctan (y / x)
  else if x < 0 then
    (if 0 ≤ y then Real.arctan (y / x) + Real.pi else Real.arctan (y / x) - Real.pi)
  else
    (if 0 < y then Real.pi / 2 else if y < 0 then -(Real.pi / 2) else 0)

/-- HaversineDistance of src/unnamed/part_016 (package zonelookup):
great-circle distance in statute miles between two latitude/longitude
points, with Earth radius 3959 miles. -/
noncomputable def HaversineDistance (lat1 lon1 lat2 lon2 : ℝ) : ℝ :=
  let earthRadiusMiles : ℝ := 3959
  let lat1Rad := lat1 * Real.pi / 180
  let lat2Rad := lat2 * Real.pi / 180
  let deltaLat := (lat2 - lat1) * Real.pi / 180
  let deltaLon := (lon2 - lon1) * Real.pi / 180
  let a := Real.sin (deltaLat / 2) * Real.sin (deltaLat / 2) +
    Real.cos lat1Rad * Real.cos lat2Rad *
      Real.sin (deltaLon / 2) * Real.sin (deltaLon / 2)
  let c := 2 * atan2 (Real.sqrt a) (Real.sqrt (1 - a))
  earthRadiusMiles * c

/-- Bounding-box prefilter of getNearbyMarineZonesFromDB
(src/unnamed/part_016, lines 81-93): the SQL WHERE clause with
inclusive BETWEEN bounds.  latDelta is maxDistanceMiles / 69.0 * 1.5;
lonDelta is the fixed maxDistanceMiles / 55.0 * 1.5, with no
adjustment for the latitude of the query point. -/
noncomputable def zoneInBox (lat lon maxDistanceMiles : ℝ) (r : ZoneRow) : Bool :=
  let latDelta := maxDistanceMiles / 69.0 * 1.5
  let lonDelta := maxDistanceMiles / 55.0 * 1.5
  decide (lat - latDelta ≤ r.centerLat) && decide (r.centerLat ≤ lat + latDelta) &&
  decide (lon - lonDelta ≤ r.centerLon) && decide (r.centerLon ≤ lon + lonDelta)

/-- Candidate accumulation loop of getNearbyMarineZonesFromDB
(src/unnamed/part_016, the local variable zones): the rows passing the
bounding-box prefilter, kept when their exact haversine distance is
within maxDistanceMiles.  The table stands for the rows of
marine_zones in insertion order.  The Go function also returns an
error value, which on this path is always nil (a database I/O failure
is the only error exit and is outside the model). -/
noncomputable def zoneCandidates
    (table : List ZoneRow) (lat lon maxDistanceMiles : ℝ) : List ZoneInfo :=
  (table.filter (zoneInBox lat lon maxDistanceMiles)).filterMap fun r =>
    let distance := HaversineDistance lat lon r.centerLat r.centerLon
    if distance ≤ maxDistanceMiles then
      some { Code := r.zoneCode, Name := r.zoneName, Distance := distance }
    else
      none

/-- Final result of getNearbyMarineZonesFromDB: the candidate list
sorted ascending by distance (sort.Slice with a strict less on the
Distance field). -/
noncomputable def getNearbyMarineZonesFromDB
    (table : List ZoneRow) (lat lon maxDistanceMiles : ℝ) : List ZoneInfo :=
  (zoneCandidates table lat lon maxDistanceMiles).mergeSort
    fun a b => decide (a.Distance ≤ b.Distance)

/-- Error result of FindNearbyStations: the fmt.Errorf value built at
src/internal/stations/repository.go when no station is within the
requested distance, carrying the formatted query point and radius. -/
inductive StationLookupError where
  | noStationsFound (lat lon maxDistanceMiles : ℝ)

/-- Bounding-box prefilter of FindNearbyStations
(src/internal/stations/repository.go, lines 61-73): latDelta is
maxDistanceMiles / 69.0 * 1.5; lonDelta is
maxDistanceMiles / (69.0 * cos (lat * pi / 180)) * 1.5, adjusted for
the latitude of the query point. -/
noncomputable def stationInBox (lat lon maxDistanceMiles : ℝ) (r : StationRow) : Bool :=
  let latDelta := maxDistanceMiles / 69.0 * 1.5
  let lonDelta := maxDistanceMiles / (69.0 * Real.cos (lat * Real.pi / 180)) * 1.5
  decide (lat - latDelta ≤ r.latitude) && decide (r.latitude ≤ lat + latDelta) &&
  decide (lon - lonDelta ≤ r.longitude) && decide (r.longitude ≤ lon + lonDelta)

/-- Candidate accumulation loop of FindNearbyStations
(src/internal/stations/repository.go, the local variable
potentialStations): rows passing the bounding-box prefilter, kept when
their exact haversine distance is within maxDistanceMiles. -/
noncomputable def stationCandidates
    (table : List StationRow) (lat lon maxDistanceMiles : ℝ) : List TideStationInfo :=
  (table.filter (stationInBox lat lon maxDistanceMiles)).filterMap fun r =>
    let distance := HaversineDistance lat lon r.latitude r.longitude
    if distance ≤ maxDistanceMiles then
      some { ID := r.id, Name := r.name, State := r.state,
             Latitude := r.latitude, Longitude := r.longitude, Distance := distance }
    else
      none

/-- FindNearbyStations of src/internal/stations/repository.go: same
two-phase lookup as the zone version, except that the longitude delta
is adjusted by the cosine of the query latitude and that an empty
candidate list is turned into an error value instead of an empty
result. -/
noncomputable def FindNearbyStations
    (table : List StationRow) (lat lon maxDistanceMiles : ℝ) :
    Except StationLookupError (List TideStationInfo) :=
  if (stationCandidates table lat lon maxDistanceMiles).isEmpty then
    .error (.noStationsFound lat lon maxDistanceMiles)
  else
    .ok ((stationCandidates table lat lon maxDistanceMiles).mergeSort
      fun a b => decide (a.Distance ≤ b.Distance))

/-! ## Provisioning write scripts and transactional visibility
(src/internal/zonelookup/provision.go, src/internal/geocoding/provision.go) -/

/-- One statement executed against the backing SQLite store during a
provisioning build: table creation (plain or IF NOT EXISTS), the
begin and commit of a transaction, or a row insert. -/
inductive DbOp (Row : Type) where
  | createTable
  | createTableIfNotExists
  | beginTx
  | commitTx
  | insertRow (r : Row)

/-- State of one table of the backing store: the committed, visible
table (none when the table does not exist) and the buffer of rows
inserted inside a still-open transaction.  A crash or interruption
discards the buffer; only the table component is visible to a
subsequent query. -/
structure DbTableState (Row : Type) where
  table : Option (List Row)
  txBuf : Option (List Row)

/-- Empty store: table absent, no open transaction. -/
def dbEmpty {Row : Type} : DbTableState Row where
  table := none
  txBuf := none

/-- Duplicate test for INSERT OR IGNORE: key gives the unique-key
value of a row (none when the table has no unique constraint on
inserted columns, as for marine_zones); a row is a duplicate when some
existing row has the same key. -/
def dupRow {Row : Type} (key : Row → Option String) (rows : List Row) (r : Row) : Bool :=
  match key r with
  | none => false
  | some k => rows.any fun x => key x = some k

/-- Effect of one statement.  An insert outside a transaction commits
immediately (visible at once); inside a transaction it goes to the
buffer and becomes visible only at commit.  INSERT OR IGNORE sees the
committed rows plus the open buffer on the same connection. -/
def applyOp {Row : Type} (key : Row → Option String) :
    DbTableState Row → DbOp Row → DbTableState Row
  | s, .createTable => { s with table := some [] }
  | s, .createTableIfNotExists => { s with table := some (s.table.getD []) }
  | s, .beginTx => { s with txBuf := some [] }
  | s, .commitTx =>
    { table := some (s.table.getD [] ++ s.txBuf.getD []), txBuf := none }
  | s, .insertRow r =>
    match s.txBuf with
    | some buf =>
      if dupRow key (s.table.getD [] ++ buf) r then s
      else { s with txBuf := some (buf ++ [r]) }
    | none =>
      if dupRow key (s.table.getD []) r then s
      else { s with table := some (s.table.getD [] ++ [r]) }

/-- Run a whole statement script. -/
def runOps {Row : Type} (key : Row → Option String)
    (s : DbTableState Row) (ops : List (DbOp Row)) : DbTableState Row :=
  ops.foldl (applyOp key) s

/-- Visible table after the run is interrupted having executed only
the first k statements: the transaction buffer is lost, the committed
table remains. -/
def visibleAfter {Row : Type} (key : Row → Option String)
    (s : DbTableState Row) (ops : List (DbOp Row)) (k : ℕ) : Option (List Row) :=
  (runOps key s (ops.take k)).table

/-- Write script of buildDatabase (src/internal/zonelookup/provision.go,
lines 150-278): one CREATE TABLE statement (the accompanying CREATE
INDEX statements are part of the same db.Exec), then one individual
autocommitted db.Exec INSERT per successfully parsed shapefile record.
No transaction is opened.  The rows argument stands for the parsed
records in shapefile order; records the loop skips (non-polygons,
marshalling failures) simply do not appear in it. -/
def buildDatabaseOps (rows : List ZoneRow) : List (DbOp ZoneRow) :=
  .createTable :: rows.map .insertRow

/-- Unique-key function of marine_zones inserts: the INSERT statement
has no conflict clause and the table has no unique constraint on the
inserted columns, so no insert is ever ignored. -/
def zoneInsertKey : ZoneRow → Option String := fun _ => none

/-- Full run of the zones build against a store. -/
def buildDatabase (s : DbTableState ZoneRow) (rows : List ZoneRow) : DbTableState ZoneRow :=
  runOps zoneInsertKey s (buildDatabaseOps rows)

/-- Row of the zipcodes table (zipcode, city, state, latitude,
longitude); zipcode is the primary key. -/
structure ZipRow where
  zipcode : String
  city : String
  state : String
  latitude : ℝ
  longitude : ℝ

/-- Unique-key function of zipcodes inserts: INSERT OR IGNORE keyed by
the zipcode primary key. -/
def zipInsertKey : ZipRow → Option String := fun r => some r.zipcode

/-- Write script of buildZipcodeDatabase
(src/internal/geocoding/provision.go, lines 168-218): CREATE TABLE IF
NOT EXISTS (the index creation is a further DDL statement with no row
effect and is folded into it), then one transaction wrapping every
INSERT OR IGNORE row write, committed at the end.  The rows argument
stands for the successfully parsed CSV records in file order; records
the loop skips (short records, unparsable coordinates) do not appear
in it. -/
def buildZipcodeDatabaseOps (rows : List ZipRow) : List (DbOp ZipRow) :=
  .createTableIfNotExists :: .beginTx :: (rows.map .insertRow ++ [.commitTx])

/-- Full run of the zipcode build against a store. -/
def buildZipcodeDatabase (s : DbTableState ZipRow) (rows : List ZipRow) : DbTableState ZipRow :=
  runOps zipInsertKey s (buildZipcodeDatabaseOps rows)

/-- ProvisionDatabase of src/internal/zonelookup/provision.go: probe
sqlite_master for the marine_zones table and return immediately with a
nil error when it exists; otherwise download and extract the shapefile
(external I/O, success path) and run buildDatabase.  The store
argument is the current marine_zones table (none when absent); the
result pairs the new table with the returned error message. -/
def ProvisionDatabase (store : Option (List ZoneRow)) (shapeRows : List ZoneRow) :
    Option (List ZoneRow) × Option String :=
  if store.isSome then
    (store, none)
  else
    ((buildDatabase { table := store, txBuf := none } shapeRows).table, none)

/-- State of the single shared database file as the geocoding
provisioner sees it: none when the file does not exist, otherwise the
zipcodes table (none when that table is absent). -/
structure GeoDbFile where
  zipcodes : Option (List ZipRow)

/-- NeedsProvisioning of src/internal/geocoding/provision.go: true
when the database file does not exist or the zipcodes table is
missing from it. -/
def NeedsProvisioning (dbFile : Option GeoDbFile) : Bool :=
  match dbFile with
  | none => true
  | some f => f.zipcodes.isNone

/-- ProvisionZipcodeDatabaseWithProgress of
src/internal/geocoding/provision.go: re-check NeedsProvisioning inside
the pipeline and return a nil error without touching the store when it
reports false; otherwise run buildZipcodeDatabase on the bundled CSV
rows (the CSV lookup and progress reporting are external I/O, success
path). -/
def ProvisionZipcodeDatabaseWithProgress
    (dbFile : Option GeoDbFile) (csvRows : List ZipRow) :
    Option GeoDbFile × Option String :=
  if NeedsProvisioning dbFile = false then
    (dbFile, none)
  else
    (some { zipcodes :=
      (buildZipcodeDatabase { table := dbFile.bind (·.zipcodes), txBuf := none } csvRows).table },
      none)

/-! ## Saved-port persistence (src/internal/ports/repository.go,
src/unnamed/part_002 for the schema) -/

/-- Row of the user_ports table as written by SavePort.  The name
column carries a unique index (database.EnsureUserSchema); the
autoincrement id column is managed by the store, not set by the
upsert, and is omitted. -/
structure PortRow where
  name : String
  state : String
  city : String
  zipcode : String
  marineZoneId : String
  tideStationId : String
  latitude : ℝ
  longitude : ℝ
  createdAt : ℤ

/-- CreatedAt defaulting of SavePort: a zero CreatedAt is replaced by
the current time before the INSERT. -/
def savedPortRecord (port : PortRow) (now : ℤ) : PortRow :=
  if port.createdAt = 0 then { port with createdAt := now } else port

/-- SavePort of src/internal/ports/repository.go: INSERT with ON
CONFLICT(name) DO UPDATE SET on every column.  When a row with the
same name exists the conflict clause overwrites all its fields in
place; otherwise a new row is appended.  The second component is the
record actually stored (the source mutates port.CreatedAt in place
before executing the statement). -/
def SavePort (table : List PortRow) (port : PortRow) (now : ℤ) : List PortRow × PortRow :=
  let p := savedPortRecord port now
  if table.any (fun r => r.name = p.name) then
    (table.map (fun r => if r.name = p.name then p else r), p)
  else
    (table ++ [p], p)

/-! ## Concrete sample data used by counterexamples and witnesses -/

/-- Sample wind reading. -/
def sampleWind : WindData where
  Direction := "W"
  SpeedMin := 15
  SpeedMax := 20
  GustSpeed := 30
  HasGust := true
  RawText := "W winds 15 to 20 kt with gusts up to 30 kt"

/-- Sample sea state. -/
def sampleSeas : SeaState where
  HeightMin := 5
  HeightMax := 7
  Components := [{ Direction := "S", Height := 5, Period := 8 }]
  RawText := "Seas 5 to 7 ft"

/-- Sample current marine conditions. -/
def sampleConditions : MarineConditions where
  Location := "ANZ254"
  Temperature := 58
  Conditions := "Partly Cloudy"
  Wind := sampleWind
  Seas := sampleSeas
  Visibility := 10
  Pressure := 1013
  UpdatedAt := 1700000000

/-- Sample forecast. -/
def sampleForecast : ThreeDayForecast where
  Periods := [{ Date := 1700000000, DayOfWeek := "Friday", PeriodName := "Tonight",
                Conditions := "Clear", Wind := sampleWind, Seas := sampleSeas,
                Temperature := 55, RawText := "Tonight...W winds 15 kt." }]
  UpdatedAt := 1700000000

/-- Sample alert payload. -/
def sampleAlerts : AlertData where
  Alerts := [{ ID := "urn:1", Event := "Small Craft Advisory",
               Headline := "Small Craft Advisory in effect",
               Description := "Winds and seas hazardous to small craft.",
               Severity := "Moderate", Urgency := "Expected", Certainty := "Likely",
               Onset := 1700000000, Expires := 1700086400,
               Areas := ["ANZ254"], Instruction := "Remain in port." }]
  UpdatedAt := 1700000000

/-- Sample tide predictions. -/
def sampleTides : TideData where
  StationID := "8447435"
  StationName := "Chatham"
  Events := [{ Time := 1700000000, tideType := "H", Height := 5.2 }]
  UpdatedAt := 1700000000

/-- Sample selected zone. -/
def sampleZone : ZoneInfo where
  Code := "ANZ254"
  Name := "Coastal waters east of Chatham"
  Distance := 3.1

/-- Sample tide station. -/
def sampleStation : TideStationInfo where
  ID := "8447435"
  Name := "Chatham, Lydia Cove"
  State := "MA"
  Latitude := 41.6885
  Longitude := -69.9511
  Distance := 2.4

/-- Reducer model in StateLoading right after a zone was selected:
both loading flags set and stale weather, forecast and alert data
cleared, exactly the state handleZoneList produces. -/
def loadingModel : Model :=
  { NewModel "" with state := .StateLoading, selectedZone := some sampleZone,
                     loadingWeather := true, loadingAlerts := true }

/-- Reducer model in StateDisplay with weather and tide data present,
as after a full successful fetch round. -/
def displayModel : Model :=
  { NewModel "" with state := .StateDisplay, selectedZone := some sampleZone,
                     location := some { Latitude := 41.6885, Longitude := -69.9511,
                                        Name := "Chatham, MA 02633" },
                     zones := [sampleZone], zoneListItems := [sampleZone],
                     weather := some sampleConditions, forecast := some sampleForecast,
                     alerts := some sampleAlerts, tides := some sampleTides,
                     tideStation := some sampleStation, tideStations := [sampleStation],
                     tideConditions := some sampleConditions }

/-- Sample marine-zones table row far north, used to exhibit the
missing cosine adjustment of the zone prefilter. -/
def arcticZoneRow : ZoneRow where
  zoneCode := "PKZ225"
  zoneName := "Arctic coast"
  centerLat := 89
  centerLon := 180

/-- Two sample parsed shapefile records for the zones build. -/
def zoneRowA : ZoneRow where
  zoneCode := "ANZ254"
  zoneName := "Coastal waters east of Chatham"
  centerLat := 41.6
  centerLon := -69.9

/-- Second sample shapefile record. -/
def zoneRowB : ZoneRow where
  zoneCode := "ANZ237"
  zoneName := "Cape Cod Bay"
  centerLat := 41.9
  centerLon := -70.3

/-- Sample saved-port record. -/
def samplePort1 : PortRow where
  name := "Home"
  state := "MA"
  city := "Chatham"
  zipcode := "02633"
  marineZoneId := "ANZ254"
  tideStationId := "8447435"
  latitude := 41.6885
  longitude := -69.9511
  createdAt := 1700000000

/-- Second saved-port record with the same name and different
fields. -/
def samplePort2 : PortRow where
  name := "Home"
  state := "ME"
  city := "Portland"
  zipcode := "04101"
  marineZoneId := "ANZ153"
  tideStationId := "8418150"
  latitude := 43.6591
  longitude := -70.2468
  createdAt := 1800000000

/-! ## Claims about the reducer -/

/-- C1, counterexample.  The claim says the reducer stays in Loading
when a weather completion arrives while the alert flag is still set.
In the source, the zoneWeatherFetchedMsg handler transitions to
StateDisplay unconditionally: from the post-zone-selection loading
state, one weather completion ends in StateDisplay with loadingAlerts
still true. -/
theorem C1_counterexample :
    (loadingModel.Update
        (.zoneWeatherFetchedMsg (some sampleConditions) (some sampleForecast) none)).1.state
      = .StateDisplay ∧
    (loadingModel.Update
        (.zoneWeatherFetchedMsg (some sampleConditions) (some sampleForecast) none)).1.loadingAlerts
      = true :=
  ⟨rfl, rfl⟩

/-- C1, amended.  From Loading with both flags set, processing a
weather or alert completion message clears the loading flag of that
fetch and moves the reducer to StateDisplay immediately, whether or not
the other flag is still true (in particular it is in Display once all
flags are false, but it does not wait for them). -/
theorem C1_entry_policy (m : Model)
    (hs : m.state = .StateLoading) (hw : m.loadingWeather = true) (ha : m.loadingAlerts = true)
    (conditions : Option MarineConditions) (forecast : Option ThreeDayForecast)
    (alerts : Option AlertData) (errW errA : Option String) :
    ((m.Update (.zoneWeatherFetchedMsg conditions forecast errW)).1.state = .StateDisplay ∧
      (m.Update (.zoneWeatherFetchedMsg conditions forecast errW)).1.loadingWeather = false ∧
      (m.Update (.zoneWeatherFetchedMsg conditions forecast errW)).1.loadingAlerts = true) ∧
    ((m.Update (.zoneAlertsFetchedMsg alerts errA)).1.state = .StateDisplay ∧
      (m.Update (.zoneAlertsFetchedMsg alerts errA)).1.loadingAlerts = false ∧
      (m.Update (.zoneAlertsFetchedMsg alerts errA)).1.loadingWeather = true) := by
  cases errW <;> cases errA <;> simp [Model.Update, hs, hw, ha]

/-- C1, witness for the amended theorem at the concrete
post-zone-selection loading model. -/
theorem C1_entry_policy_witness :
    loadingModel.state = .StateLoading ∧ loadingModel.loadingWeather = true ∧
    loadingModel.loadingAlerts = true ∧
    (((loadingModel.Update
          (.zoneWeatherFetchedMsg (some sampleConditions) (some sampleForecast) none)).1.state
        = .StateDisplay ∧
      (loadingModel.Update
          (.zoneWeatherFetchedMsg (some sampleConditions) (some sampleForecast) none)).1.loadingWeather
        = false ∧
      (loadingModel.Update
          (.zoneWeatherFetchedMsg (some sampleConditions) (some sampleForecast) none)).1.loadingAlerts
        = true) ∧
    ((loadingModel.Update (.zoneAlertsFetchedMsg none (some "alerts timeout"))).1.state
        = .StateDisplay ∧
      (loadingModel.Update (.zoneAlertsFetchedMsg none (some "alerts timeout"))).1.loadingAlerts
        = false ∧
      (loadingModel.Update (.zoneAlertsFetchedMsg none (some "alerts timeout"))).1.loadingWeather
        = true)) :=
  ⟨rfl, rfl, rfl,
    C1_entry_policy loadingModel rfl rfl rfl (some sampleConditions) (some sampleForecast)
      none none (some "alerts timeout")⟩

/-- C2.  Degrade-do-not-block: from the post-zone-selection loading
state, a weather success followed by an alert failure, or the two in
the opposite order, ends in StateDisplay with the weather payload
stored and the alert field still absent; and a single failed
weather, alert or tide fetch never moves the reducer into StateError
from a non-error state. -/
theorem C2_degrade_dont_block (m m2 : Model) (w : MarineConditions) (f : ThreeDayForecast)
    (e e2 : String)
    (hs : m.state = .StateLoading) (_hw : m.loadingWeather = true)
    (_ha : m.loadingAlerts = true)
    (hwd : m.weather = none) (_hfd : m.forecast = none) (had : m.alerts = none)
    (h2 : m2.state ≠ .StateError) :
    (((m.Update (.zoneWeatherFetchedMsg (some w) (some f) none)).1.Update
        (.zoneAlertsFetchedMsg none (some e))).1.state = .StateDisplay ∧
      ((m.Update (.zoneWeatherFetchedMsg (some w) (some f) none)).1.Update
        (.zoneAlertsFetchedMsg none (some e))).1.weather = some w ∧
      ((m.Update (.zoneWeatherFetchedMsg (some w) (some f) none)).1.Update
        (.zoneAlertsFetchedMsg none (some e))).1.alerts = none) ∧
    (((m.Update (.zoneAlertsFetchedMsg none (some e))).1.Update
        (.zoneWeatherFetchedMsg (some w) (some f) none)).1.state = .StateDisplay ∧
      ((m.Update (.zoneAlertsFetchedMsg none (some e))).1.Update
        (.zoneWeatherFetchedMsg (some w) (some f) none)).1.weather = some w ∧
      ((m.Update (.zoneAlertsFetchedMsg none (some e))).1.Update
        (.zoneWeatherFetchedMsg (some w) (some f) none)).1.alerts = none) ∧
    (m2.Update (.zoneWeatherFetchedMsg none none (some e2))).1.state ≠ .StateError ∧
    (m2.Update (.zoneAlertsFetchedMsg none (some e2))).1.state ≠ .StateError ∧
    (m2.Update (.tideDataFetchedMsg none none (some e2))).1.state ≠ .StateError := by
  refine ⟨?_, ?_, ?_, ?_, ?_⟩
  · simp [Model.Update, hs, had]
  · simp [Model.Update, hs, hwd, had]
  · simp only [Model.Update]
    split <;> simp_all
  · simp only [Model.Update]
    split <;> simp_all
  · simpa [Model.Update] using h2

/-- C2, witness at the concrete post-zone-selection loading model. -/
theorem C2_degrade_dont_block_witness :
    loadingModel.state = .StateLoading ∧ loadingModel.loadingWeather = true ∧
    loadingModel.loadingAlerts = true ∧ loadingModel.weather = none ∧
    loadingModel.forecast = none ∧ loadingModel.alerts = none ∧
    (((loadingModel.Update
          (.zoneWeatherFetchedMsg (some sampleConditions) (some sampleForecast) none)).1.Update
        (.zoneAlertsFetchedMsg none (some "alerts timeout"))).1.state = .StateDisplay ∧
      ((loadingModel.Update
          (.zoneWeatherFetchedMsg (some sampleConditions) (some sampleForecast) none)).1.Update
        (.zoneAlertsFetchedMsg none (some "alerts timeout"))).1.weather = some sampleConditions ∧
      ((loadingModel.Update
          (.zoneWeatherFetchedMsg (some sampleConditions) (some sampleForecast) none)).1.Update
        (.zoneAlertsFetchedMsg none (some "alerts timeout"))).1.alerts = none) :=
  ⟨rfl, rfl, rfl, rfl, rfl, rfl,
    (C2_degrade_dont_block loadingModel loadingModel sampleConditions sampleForecast
        "alerts timeout" "weather timeout" rfl rfl rfl rfl rfl rfl
        (by simp [loadingModel, NewModel])).1⟩

/-- C9, counterexample.  The claim says a tide-station lookup failure
transitions the state machine to StateError.  In the source, the
tideStationFoundMsg error branch only clears the station candidates
and keeps both the state and the error field unchanged: from
StateLoading the reducer is still in StateLoading with no error
message. -/
theorem C9_counterexample :
    (({ NewModel "" with state := .StateLoading } : Model).Update
        (.tideStationFoundMsg [] (some "station lookup failed"))).1.state = .StateLoading ∧
    (({ NewModel "" with state := .StateLoading } : Model).Update
        (.tideStationFoundMsg [] (some "station lookup failed"))).1.err = none :=
  ⟨rfl, rfl⟩

/-- C9, amended.  A geocode failure and a nearby-zone lookup failure
are fatal: the reducer moves to StateError carrying the user-facing
message.  A tide-station lookup failure is swallowed: the station
candidates are cleared and the state and error field are left
unchanged. -/
theorem C9_lookup_failures (m : Model) (loc : Location) (zs : List ZoneInfo)
    (ss : List TideStationInfo) (e : String) :
    (m.Update (.geocodeMsg loc (some e))).1.state = .StateError ∧
    (m.Update (.geocodeMsg loc (some e))).1.err = some ("geocoding failed: " ++ e) ∧
    (m.Update (.zonesFoundMsg zs (some e))).1.state = .StateError ∧
    (m.Update (.zonesFoundMsg zs (some e))).1.err = some ("finding zones failed: " ++ e) ∧
    (m.Update (.tideStationFoundMsg ss (some e))).1.state = m.state ∧
    (m.Update (.tideStationFoundMsg ss (some e))).1.err = m.err ∧
    (m.Update (.tideStationFoundMsg ss (some e))).1.tideStation = none ∧
    (m.Update (.tideStationFoundMsg ss (some e))).1.tideStations = [] := by
  simp [Model.Update]

/-- C9, witness for the amended theorem at a concrete loading model. -/
theorem C9_lookup_failures_witness :
    (({ NewModel "" with state := .StateLoading } : Model).Update
        (.geocodeMsg { Latitude := 41.6885, Longitude := -69.9511, Name := "Chatham" }
          (some "no results"))).1.state = .StateError ∧
    (({ NewModel "" with state := .StateLoading } : Model).Update
        (.geocodeMsg { Latitude := 41.6885, Longitude := -69.9511, Name := "Chatham" }
          (some "no results"))).1.err = some ("geocoding failed: " ++ "no results") :=
  ⟨(C9_lookup_failures { NewModel "" with state := .StateLoading }
      { Latitude := 41.6885, Longitude := -69.9511, Name := "Chatham" } [] [] "no results").1,
    (C9_lookup_failures { NewModel "" with state := .StateLoading }
      { Latitude := 41.6885, Longitude := -69.9511, Name := "Chatham" } [] [] "no results").2.1⟩

/-- C10, counterexample.  The claim says that pressing s in
StateDisplay discards every transient entity, including tide-station
candidates and tide data.  In the source, the s handler clears
selectedZone, weather, forecast, alerts, location and zones but leaves
tideStation, tideStations, tides and tideConditions untouched: from a
populated display model they all carry over into the new search. -/
theorem C10_counterexample :
    (displayModel.Update (.key (.char 's'))).1.state = .StateSearch ∧
    (displayModel.Update (.key (.char 's'))).1.tides = some sampleTides ∧
    (displayModel.Update (.key (.char 's'))).1.tideStation = some sampleStation ∧
    (displayModel.Update (.key (.char 's'))).1.tideStations = [sampleStation] ∧
    (displayModel.Update (.key (.char 's'))).1.tideConditions = some sampleConditions :=
  ⟨rfl, rfl, rfl, rfl, rfl⟩

/-- C10, amended.  Pressing s in StateDisplay moves the reducer to
StateSearch and clears the selected zone, weather, forecast, alerts,
location, zone candidates and the search input atomically; the
tide-station candidates, selected tide station, tide data and tide
conditions are not cleared and retain their prior values. -/
theorem C10_research_reset (m : Model) (h : m.state = .StateDisplay) :
    (m.Update (.key (.char 's'))).1.state = .StateSearch ∧
    (m.Update (.key (.char 's'))).1.selectedZone = none ∧
    (m.Update (.key (.char 's'))).1.weather = none ∧
    (m.Update (.key (.char 's'))).1.forecast = none ∧
    (m.Update (.key (.char 's'))).1.alerts = none ∧
    (m.Update (.key (.char 's'))).1.location = none ∧
    (m.Update (.key (.char 's'))).1.zones = [] ∧
    (m.Update (.key (.char 's'))).1.searchInput = "" ∧
    (m.Update (.key (.char 's'))).1.tideStation = m.tideStation ∧
    (m.Update (.key (.char 's'))).1.tideStations = m.tideStations ∧
    (m.Update (.key (.char 's'))).1.tides = m.tides ∧
    (m.Update (.key (.char 's'))).1.tideConditions = m.tideConditions := by
  simp [Model.Update, h, Key.isQuit]

/-- C10, witness for the amended theorem at the populated display
model. -/
theorem C10_research_reset_witness :
    displayModel.state = .StateDisplay ∧
    ((displayModel.Update (.key (.char 's'))).1.state = .StateSearch ∧
      (displayModel.Update (.key (.char 's'))).1.selectedZone = none ∧
      (displayModel.Update (.key (.char 's'))).1.weather = none ∧
      (displayModel.Update (.key (.char 's'))).1.forecast = none ∧
      (displayModel.Update (.key (.char 's'))).1.alerts = none ∧
      (displayModel.Update (.key (.char 's'))).1.location = none ∧
      (displayModel.Update (.key (.char 's'))).1.zones = [] ∧
      (displayModel.Update (.key (.char 's'))).1.searchInput = "" ∧
      (displayModel.Update (.key (.char 's'))).1.tideStation = displayModel.tideStation ∧
      (displayModel.Update (.key (.char 's'))).1.tideStations = displayModel.tideStations ∧
      (displayModel.Update (.key (.char 's'))).1.tides = displayModel.tides ∧
      (displayModel.Update (.key (.char 's'))).1.tideConditions = displayModel.tideConditions) :=
  ⟨rfl, C10_research_reset displayModel rfl⟩

/-! ## Claims about the geospatial lookups -/

/-- Sorting by a real-valued measure with mergeSort yields a list
sorted by that measure. -/
theorem sorted_mergeSort_measure {α : Type} (f : α → ℝ) (l : List α) :
    List.Sorted (fun a b => f a ≤ f b) (l.mergeSort fun a b => decide (f a ≤ f b)) := by
  have h := @List.sorted_mergeSort α (fun a b => decide (f a ≤ f b))
    (fun a b c h1 h2 => by
      simp only [decide_eq_true_eq] at h1 h2 ⊢
      exact le_trans h1 h2)
    (fun a b => by
      simpa using le_total (f a) (f b)) l
  exact h.imp fun h => by simpa using h

/-- C3.  Both nearby lookups return only candidates whose recorded
distance is the haversine distance from the query point to a table
row, at most the requested radius, and both result lists are sorted by
non-decreasing distance (for the station lookup, whenever it returns a
result at all). -/
theorem C3_nearby_radius_sorted (ztable : List ZoneRow) (stable : List StationRow)
    (lat lon maxD : ℝ) :
    (List.Sorted (fun a b => a.Distance ≤ b.Distance)
        (getNearbyMarineZonesFromDB ztable lat lon maxD) ∧
      ∀ z ∈ getNearbyMarineZonesFromDB ztable lat lon maxD,
        z.Distance ≤ maxD ∧ ∃ r ∈ ztable, z.Code = r.zoneCode ∧
          z.Distance = HaversineDistance lat lon r.centerLat r.centerLon) ∧
    (∀ ss, FindNearbyStations stable lat lon maxD = .ok ss →
      List.Sorted (fun a b => a.Distance ≤ b.Distance) ss ∧
      ∀ s ∈ ss, s.Distance ≤ maxD ∧ ∃ r ∈ stable, s.ID = r.id ∧
        s.Distance = HaversineDistance lat lon r.latitude r.longitude) := by
  constructor
  · constructor
    · exact sorted_mergeSort_measure ZoneInfo.Distance _
    · intro z hz
      simp only [getNearbyMarineZonesFromDB] at hz
      rw [List.Perm.mem_iff (List.mergeSort_perm _ _)] at hz
      simp only [zoneCandidates, List.mem_filterMap] at hz
      obtain ⟨r, hrbox, hr⟩ := hz
      have hrtab : r ∈ ztable := List.mem_of_mem_filter hrbox
      by_cases hd : HaversineDistance lat lon r.centerLat r.centerLon ≤ maxD
      · rw [if_pos hd] at hr
        cases hr
        exact ⟨hd, r, hrtab, rfl, rfl⟩
      · rw [if_neg hd] at hr
        cases hr
  · intro ss hss
    simp only [FindNearbyStations] at hss
    split at hss
    · cases hss
    · cases hss
      constructor
      · exact sorted_mergeSort_measure TideStationInfo.Distance _
      · intro s hs
        rw [List.Perm.mem_iff (List.mergeSort_perm _ _)] at hs
        simp only [stationCandidates, List.mem_filterMap] at hs
        obtain ⟨r, hrbox, hr⟩ := hs
        have hrtab : r ∈ stable := List.mem_of_mem_filter hrbox
        by_cases hd : HaversineDistance lat lon r.latitude r.longitude ≤ maxD
        · rw [if_pos hd] at hr
          cases hr
          exact ⟨hd, r, hrtab, rfl, rfl⟩
        · rw [if_neg hd] at hr
          cases hr

/-- C3, witness at a concrete query over the empty index. -/
theorem C3_nearby_radius_sorted_witness :
    (List.Sorted (fun a b => a.Distance ≤ b.Distance)
        (getNearbyMarineZonesFromDB [] 41.6885 (-69.9511) 50) ∧
      ∀ z ∈ getNearbyMarineZonesFromDB [] 41.6885 (-69.9511) 50,
        z.Distance ≤ 50 ∧ ∃ r ∈ ([] : List ZoneRow), z.Code = r.zoneCode ∧
          z.Distance = HaversineDistance 41.6885 (-69.9511) r.centerLat r.centerLon) ∧
    (∀ ss, FindNearbyStations [] 41.6885 (-69.9511) 50 = .ok ss →
      List.Sorted (fun a b => a.Distance ≤ b.Distance) ss ∧
      ∀ s ∈ ss, s.Distance ≤ 50 ∧ ∃ r ∈ ([] : List StationRow), s.ID = r.id ∧
        s.Distance = HaversineDistance 41.6885 (-69.9511) r.latitude r.longitude) :=
  C3_nearby_radius_sorted [] [] 41.6885 (-69.9511) 50

/-- atan2 on a point with positive first coordinate written as
(sin t, cos t) recovers the angle t when t is in (-pi/2, pi/2). -/
theorem atan2_sin_cos {t : ℝ} (h1 : -(Real.pi / 2) < t) (h2 : t < Real.pi / 2) :
    atan2 (Real.sin t) (Real.cos t) = t := by
  have hc : 0 < Real.cos t := Real.cos_pos_of_mem_Ioo ⟨h1, h2⟩
  rw [atan2, if_pos hc, ← Real.tan_eq_sin_div_cos, Real.arctan_tan h1 h2]

/-- Haversine distance between the points (89, 0) and (89, 180): the
two points sit on latitude 89 degrees on opposite meridians, and the
great circle through them crosses the pole, giving exactly two degrees
of arc, that is 3959 * pi / 90 miles (about 138.2 miles). -/
theorem haversine_89_0_89_180 :
    HaversineDistance 89 0 89 180 = 3959 * (Real.pi / 90) := by
  have hpi := Real.pi_pos
  have h0 : ((89 : ℝ) - 89) * Real.pi / 180 / 2 = 0 := by ring
  have h1 : ((180 : ℝ) - 0) * Real.pi / 180 / 2 = Real.pi / 2 := by ring
  have h2 : (89 : ℝ) * Real.pi / 180 = Real.pi / 2 - Real.pi / 180 := by ring
  have hsin : 0 ≤ Real.sin (Real.pi / 180) :=
    Real.sin_nonneg_of_nonneg_of_le_pi (by positivity) (by linarith)
  have hcos : 0 ≤ Real.cos (Real.pi / 180) :=
    Real.cos_nonneg_of_mem_Icc ⟨by linarith, by linarith⟩
  simp only [HaversineDistance, h0, h1, h2, Real.sin_zero, Real.sin_pi_div_two,
    Real.cos_pi_div_two_sub]
  rw [show (0 : ℝ) * 0 + Real.sin (Real.pi / 180) * Real.sin (Real.pi / 180) * 1 * 1
        = Real.sin (Real.pi / 180) ^ 2 from by ring]
  rw [show (1 : ℝ) - Real.sin (Real.pi / 180) ^ 2 = Real.cos (Real.pi / 180) ^ 2 from by
    have := Real.sin_sq_add_cos_sq (Real.pi / 180); linarith]
  rw [Real.sqrt_sq hsin, Real.sqrt_sq hcos,
    atan2_sin_cos (by linarith) (by linarith)]
  ring

/-- C4, counterexample.  The zone prefilter uses a fixed longitude
divisor of 55.0 with no cosine adjustment, so its box is not a
superset of the true radius disk: the marine zone centred at
(89, 180) lies within 150 true haversine miles of the query point
(89, 0) (the distance is 3959 * pi / 90, under 139 miles), yet the
lookup returns nothing because 180 fails the longitude bound
0 + 150 / 55 * 1.5. -/
theorem C4_counterexample :
    HaversineDistance 89 0 89 180 ≤ 150 ∧
    getNearbyMarineZonesFromDB [arcticZoneRow] 89 0 150 = [] := by
  constructor
  · rw [haversine_89_0_89_180]
    nlinarith [Real.pi_lt_d2]
  · have hbox : zoneInBox 89 0 150 arcticZoneRow = false := by
      simp only [zoneInBox, arcticZoneRow, Bool.and_eq_false_iff,
        decide_eq_false_iff_not]
      right
      norm_num
    simp [getNearbyMarineZonesFromDB, zoneCandidates, List.filter, hbox]

/-- atan2 applied to the legs (sqrt a, sqrt (1 - a)) of the haversine
formula is arcsin (sqrt a), for a in [0, 1]. -/
theorem atan2_sqrt_eq_arcsin {a : ℝ} (h0 : 0 ≤ a) (h1 : a ≤ 1) :
    atan2 (Real.sqrt a) (Real.sqrt (1 - a)) = Real.arcsin (Real.sqrt a) := by
  rcases lt_or_eq_of_le h1 with hlt | heq
  · have hx : 0 < Real.sqrt (1 - a) := Real.sqrt_pos.mpr (by linarith)
    have hmem : Real.sqrt a ∈ Set.Ioo (-(1 : ℝ)) 1 := by
      constructor
      · have := Real.sqrt_nonneg a; linarith
      · have h := Real.sqrt_lt_sqrt h0 hlt
        simpa using h
    rw [atan2, if_pos hx, Real.arcsin_eq_arctan hmem, Real.sq_sqrt h0]
  · subst heq
    rw [show (1 : ℝ) - 1 = 0 from by norm_num, Real.sqrt_zero, Real.sqrt_one,
      Real.arcsin_one, atan2, if_neg (lt_irrefl 0), if_neg (lt_irrefl 0),
      if_pos one_pos]

/-- Lower bound for arcsin (sqrt a): whenever a dominates the squared
sine of an angle x of size at most pi/2, arcsin (sqrt a) is at least
the size of x. -/
theorem arcsin_sqrt_ge {x a : ℝ} (hax : Real.sin x * Real.sin x ≤ a)
    (hxb : |x| ≤ Real.pi / 2) : |x| ≤ Real.arcsin (Real.sqrt a) := by
  have hpi := Real.pi_pos
  have h1 : |Real.sin x| ≤ Real.sqrt a := by
    have h := Real.sqrt_le_sqrt hax
    rwa [show Real.sin x * Real.sin x = Real.sin x ^ 2 from by ring,
      Real.sqrt_sq_eq_abs] at h
  have habs : |Real.sin x| = Real.sin |x| := by
    rcases le_or_lt 0 x with hx0 | hx0
    · rw [abs_of_nonneg hx0,
        abs_of_nonneg (Real.sin_nonneg_of_nonneg_of_le_pi hx0 (by
          rw [abs_of_nonneg hx0] at hxb; linarith))]
    · have hxlow : -Real.pi ≤ x := by
        rw [abs_of_neg hx0] at hxb; linarith
      rw [abs_of_neg hx0, Real.sin_neg,
        abs_of_nonpos (Real.sin_nonpos_of_nonnpos_of_neg_pi_le (le_of_lt hx0) hxlow)]
  have h2 : Real.arcsin |Real.sin x| = |x| := by
    rw [habs]
    exact Real.arcsin_sin (le_trans (by linarith) (abs_nonneg x)) hxb
  calc |x| = Real.arcsin |Real.sin x| := h2.symm
    _ ≤ Real.arcsin (Real.sqrt a) := Real.monotone_arcsin h1

/-- Latitude lower bound for the haversine distance: two points whose
latitudes lie in [-90, 90] are at least 3959 * pi / 180 miles apart
per degree of latitude difference, whatever their longitudes. -/
theorem haversine_lat_lower (lat1 lon1 lat2 lon2 : ℝ)
    (h1l : -90 ≤ lat1) (h1r : lat1 ≤ 90) (h2l : -90 ≤ lat2) (h2r : lat2 ≤ 90) :
    3959 * Real.pi / 180 * |lat2 - lat1| ≤ HaversineDistance lat1 lon1 lat2 lon2 := by
  have hpi := Real.pi_pos
  have hc1 : 0 ≤ Real.cos (lat1 * Real.pi / 180) := by
    apply Real.cos_nonneg_of_mem_Icc
    constructor
    · nlinarith [mul_nonneg (by linarith : (0 : ℝ) ≤ lat1 + 90) hpi.le]
    · nlinarith [mul_nonneg (by linarith : (0 : ℝ) ≤ 90 - lat1) hpi.le]
  have hc2 : 0 ≤ Real.cos (lat2 * Real.pi / 180) := by
    apply Real.cos_nonneg_of_mem_Icc
    constructor
    · nlinarith [mul_nonneg (by linarith : (0 : ℝ) ≤ lat2 + 90) hpi.le]
    · nlinarith [mul_nonneg (by linarith : (0 : ℝ) ≤ 90 - lat2) hpi.le]
  set x := (lat2 - lat1) * Real.pi / 180 / 2 with hxdef
  set y := (lon2 - lon1) * Real.pi / 180 / 2 with hydef
  set a := Real.sin x * Real.sin x +
    Real.cos (lat1 * Real.pi / 180) * Real.cos (lat2 * Real.pi / 180) *
      Real.sin y * Real.sin y with hadef
  have ha_lb : Real.sin x * Real.sin x ≤ a := by
    rw [hadef]
    nlinarith [mul_nonneg (mul_nonneg hc1 hc2) (mul_self_nonneg (Real.sin y))]
  have ha0 : 0 ≤ a := le_trans (mul_self_nonneg _) ha_lb
  have ha1 : a ≤ 1 := by
    have e1 : Real.cos (lat1 * Real.pi / 180) * Real.cos (lat2 * Real.pi / 180)
        = (Real.cos (lat1 * Real.pi / 180 + lat2 * Real.pi / 180)
           + Real.cos (lat1 * Real.pi / 180 - lat2 * Real.pi / 180)) / 2 := by
      rw [Real.cos_add, Real.cos_sub]; ring
    have e2 : Real.cos (lat1 * Real.pi / 180 - lat2 * Real.pi / 180)
        = 1 - 2 * (Real.sin x * Real.sin x) := by
      have harg : lat1 * Real.pi / 180 - lat2 * Real.pi / 180 = 2 * (-x) := by
        rw [hxdef]; ring
      rw [harg, Real.cos_two_mul, Real.cos_sq', Real.sin_neg]; ring
    have e3 : Real.cos (lat1 * Real.pi / 180 + lat2 * Real.pi / 180) ≤ 1 :=
      Real.cos_le_one _
    have hprod : Real.cos (lat1 * Real.pi / 180) * Real.cos (lat2 * Real.pi / 180)
        ≤ 1 - Real.sin x * Real.sin x := by
      rw [e1, e2]; linarith
    have hcc : 0 ≤ Real.cos (lat1 * Real.pi / 180) * Real.cos (lat2 * Real.pi / 180) :=
      mul_nonneg hc1 hc2
    have hsy : Real.sin y * Real.sin y ≤ 1 := by
      nlinarith [Real.sin_le_one y, Real.neg_one_le_sin y]
    have hkey : Real.cos (lat1 * Real.pi / 180) * Real.cos (lat2 * Real.pi / 180) *
        Real.sin y * Real.sin y
        ≤ Real.cos (lat1 * Real.pi / 180) * Real.cos (lat2 * Real.pi / 180) := by
      nlinarith [hcc, hsy]
    rw [hadef]
    linarith [hkey, hprod]
  have hxb : |x| ≤ Real.pi / 2 := by
    rw [hxdef]
    rw [abs_le]
    constructor
    · nlinarith [mul_nonneg (by linarith : (0 : ℝ) ≤ lat2 - lat1 + 180) hpi.le]
    · nlinarith [mul_nonneg (by linarith : (0 : ℝ) ≤ 180 - (lat2 - lat1)) hpi.le]
  have harc : |x| ≤ Real.arcsin (Real.sqrt a) := arcsin_sqrt_ge ha_lb hxb
  have hd : HaversineDistance lat1 lon1 lat2 lon2
      = 3959 * (2 * atan2 (Real.sqrt a) (Real.sqrt (1 - a))) := rfl
  rw [hd, atan2_sqrt_eq_arcsin ha0 ha1]
  have habs : |x| = Real.pi / 360 * |lat2 - lat1| := by
    rw [hxdef, show (lat2 - lat1) * Real.pi / 180 / 2
        = Real.pi / 360 * (lat2 - lat1) from by ring,
      abs_mul, abs_of_pos (by positivity : (0 : ℝ) < Real.pi / 360)]
  rw [habs] at harc
  nlinarith [harc]

/-- C4, amended.  Both prefilters expand the radius into the latitude
delta maxD / 69.0 * 1.5, and that latitude bound is always a superset
of the true radius disk: any entity whose haversine distance from the
query point is at most maxD has a latitude inside
[lat - maxD / 69.0 * 1.5, lat + maxD / 69.0 * 1.5], for latitudes in
[-90, 90].  (The longitude bound does not have this property: the zone
lookup uses the fixed divisor 55.0 with no cosine adjustment and
misses in-radius entities at high latitude.) -/
theorem C4_prefilter_latitude (lat1 lon1 lat2 lon2 maxD : ℝ)
    (h1l : -90 ≤ lat1) (h1r : lat1 ≤ 90) (h2l : -90 ≤ lat2) (h2r : lat2 ≤ 90)
    (hd : HaversineDistance lat1 lon1 lat2 lon2 ≤ maxD) :
    lat1 - maxD / 69.0 * 1.5 ≤ lat2 ∧ lat2 ≤ lat1 + maxD / 69.0 * 1.5 := by
  have hlow := haversine_lat_lower lat1 lon1 lat2 lon2 h1l h1r h2l h2r
  have hpi3 := Real.pi_gt_three
  have hnn : 0 ≤ |lat2 - lat1| := abs_nonneg _
  have hXb : |lat2 - lat1| ≤ maxD / 69.0 * 1.5 := by
    nlinarith [mul_nonneg hnn (by linarith : (0 : ℝ) ≤ Real.pi - 3)]
  have h := abs_le.mp hXb
  constructor
  · linarith [h.1]
  · linarith [h.2]

/-- C4, witness for the amended theorem at the query point (89, 0),
radius 150 and the entity (89, 180). -/
theorem C4_prefilter_latitude_witness :
    HaversineDistance 89 0 89 180 ≤ 150 ∧
    ((89 : ℝ) - 150 / 69.0 * 1.5 ≤ 89 ∧ (89 : ℝ) ≤ 89 + 150 / 69.0 * 1.5) :=
  ⟨by rw [haversine_89_0_89_180]; nlinarith [Real.pi_lt_d2],
    C4_prefilter_latitude 89 0 89 180 150 (by norm_num) (by norm_num) (by norm_num)
      (by norm_num) (by rw [haversine_89_0_89_180]; nlinarith [Real.pi_lt_d2])⟩

/-- The zone candidate list is empty when no table row is within the
radius. -/
theorem zoneCandidates_eq_nil {ztable : List ZoneRow} {lat lon maxD : ℝ}
    (hz : ∀ r ∈ ztable, maxD < HaversineDistance lat lon r.centerLat r.centerLon) :
    zoneCandidates ztable lat lon maxD = [] := by
  simp only [zoneCandidates]
  rw [List.filterMap_eq_nil_iff]
  intro r hr
  simp [not_le.mpr (hz r (List.mem_of_mem_filter hr))]

/-- The station candidate list is empty when no table row is within
the radius. -/
theorem stationCandidates_eq_nil {stable : List StationRow} {lat lon maxD : ℝ}
    (hs : ∀ r ∈ stable, maxD < HaversineDistance lat lon r.latitude r.longitude) :
    stationCandidates stable lat lon maxD = [] := by
  simp only [stationCandidates]
  rw [List.filterMap_eq_nil_iff]
  intro r hr
  simp [not_le.mpr (hs r (List.mem_of_mem_filter hr))]

/-- C5, counterexample.  The claim says both lookups treat zero
results as an empty, non-error outcome.  FindNearbyStations instead
returns the noStationsFound error value whenever nothing is within the
radius: over the empty station table it yields an error, not an empty
list. -/
theorem C5_counterexample :
    FindNearbyStations [] 0 0 10 = .error (.noStationsFound 0 0 10) ∧
    ∀ ss, FindNearbyStations [] 0 0 10 ≠ .ok ss := by
  constructor
  · rfl
  · intro ss h
    exact absurd h (by rw [show FindNearbyStations [] 0 0 10
      = .error (.noStationsFound 0 0 10) from rfl]; simp)

/-- C5, amended.  When no entity of the index lies within the radius,
the zone lookup returns the empty list with a nil error, but the
station lookup returns the noStationsFound lookup error: zero results
is a non-error outcome only for the zone lookup. -/
theorem C5_zero_results (ztable : List ZoneRow) (stable : List StationRow)
    (lat lon maxD : ℝ)
    (hz : ∀ r ∈ ztable, maxD < HaversineDistance lat lon r.centerLat r.centerLon)
    (hs : ∀ r ∈ stable, maxD < HaversineDistance lat lon r.latitude r.longitude) :
    getNearbyMarineZonesFromDB ztable lat lon maxD = [] ∧
    FindNearbyStations stable lat lon maxD = .error (.noStationsFound lat lon maxD) := by
  constructor
  · rw [getNearbyMarineZonesFromDB, zoneCandidates_eq_nil hz, List.mergeSort_nil]
  · rw [FindNearbyStations, if_pos (by rw [stationCandidates_eq_nil hs]; rfl)]

/-- C5, witness at a concrete query over the empty index. -/
theorem C5_zero_results_witness :
    getNearbyMarineZonesFromDB [] 0 0 10 = [] ∧
    FindNearbyStations [] 0 0 10 = .error (.noStationsFound 0 0 10) :=
  C5_zero_results [] [] 0 0 10 (by simp) (by simp)

/-! ## Claims about provisioning and persistence -/

/-- C6.  Running a provisioning phase against a store whose expected
table already exists is a no-op: the existence probe inside the
pipeline short-circuits, the store (hence every table row count) is
returned unchanged and the error is nil, for both the zones phase and
the locations phase. -/
theorem C6_provision_idempotent (store : Option (List ZoneRow)) (shapeRows : List ZoneRow)
    (f : GeoDbFile) (csvRows : List ZipRow)
    (hz : store.isSome = true) (hzip : f.zipcodes.isSome = true) :
    ProvisionDatabase store shapeRows = (store, none) ∧
    ProvisionZipcodeDatabaseWithProgress (some f) csvRows = (some f, none) := by
  constructor
  · rw [ProvisionDatabase, if_pos hz]
  · have hneeds : NeedsProvisioning (some f) = false := by
      obtain ⟨z, hzq⟩ := Option.isSome_iff_exists.mp hzip
      simp [NeedsProvisioning, hzq]
    rw [ProvisionZipcodeDatabaseWithProgress, if_pos hneeds]

/-- C6, witness at concrete already-provisioned stores. -/
theorem C6_provision_idempotent_witness :
    (some [zoneRowA] : Option (List ZoneRow)).isSome = true ∧
    (GeoDbFile.mk (some [])).zipcodes.isSome = true ∧
    ProvisionDatabase (some [zoneRowA]) [zoneRowA, zoneRowB] = (some [zoneRowA], none) ∧
    ProvisionZipcodeDatabaseWithProgress (some (GeoDbFile.mk (some []))) []
      = (some (GeoDbFile.mk (some [])), none) :=
  ⟨rfl, rfl,
    (C6_provision_idempotent (some [zoneRowA]) [zoneRowA, zoneRowB]
      (GeoDbFile.mk (some [])) [] rfl rfl).1,
    (C6_provision_idempotent (some [zoneRowA]) [zoneRowA, zoneRowB]
      (GeoDbFile.mk (some [])) [] rfl rfl).2⟩

/-- C7, counterexample.  The claim says every provisioning phase wraps
its row writes in one transaction, so an interrupted run leaves the
table absent, empty or fully populated.  The zones build commits each
insert individually: interrupting the two-record build after its
second statement leaves the visible marine_zones table holding
exactly the first row, which is neither absent, nor empty, nor the
fully populated two-row table. -/
theorem C7_counterexample :
    visibleAfter zoneInsertKey dbEmpty (buildDatabaseOps [zoneRowA, zoneRowB]) 2
      = some [zoneRowA] ∧
    (buildDatabase dbEmpty [zoneRowA, zoneRowB]).table = some [zoneRowA, zoneRowB] ∧
    some [zoneRowA] ≠ (none : Option (List ZoneRow)) ∧
    ([zoneRowA] : List ZoneRow) ≠ [] ∧
    ([zoneRowA] : List ZoneRow) ≠ [zoneRowA, zoneRowB] :=
  ⟨rfl, rfl, by simp, by simp, by simp⟩

/-- Folding insert statements over a state with an open transaction
never changes the visible table and keeps the transaction open. -/
theorem insertRun_table {Row : Type} (key : Row → Option String) :
    ∀ (l : List Row) (s : DbTableState Row), s.txBuf.isSome = true →
      ((l.map DbOp.insertRow).foldl (applyOp key) s).table = s.table ∧
      ((l.map DbOp.insertRow).foldl (applyOp key) s).txBuf.isSome = true := by
  intro l
  induction l with
  | nil => exact fun s hs => ⟨rfl, hs⟩
  | cons r rest ih =>
    intro s hs
    obtain ⟨buf, hbuf⟩ := Option.isSome_iff_exists.mp hs
    simp only [List.map_cons, List.foldl_cons]
    have happ : applyOp key s (.insertRow r)
        = if dupRow key (s.table.getD [] ++ buf) r then s
          else { s with txBuf := some (buf ++ [r]) } := by
      simp [applyOp, hbuf]
    rw [happ]
    by_cases hdup : dupRow key (s.table.getD [] ++ buf) r = true
    · rw [if_pos hdup]; exact ih s hs
    · rw [if_neg hdup]
      have h := ih { s with txBuf := some (buf ++ [r]) } (by simp)
      simpa using h

/-- C7, amended.  The locations-index build does wrap all its row
writes in one transaction: however the zipcode build is interrupted,
the visible zipcodes table is absent (nothing ran), empty (the
transaction had not committed) or the fully populated final table.
The zones-index build has no such guarantee (see the
counterexample). -/
theorem C7_zip_single_transaction (rows : List ZipRow) (k : ℕ) :
    visibleAfter zipInsertKey dbEmpty (buildZipcodeDatabaseOps rows) k = none ∨
    visibleAfter zipInsertKey dbEmpty (buildZipcodeDatabaseOps rows) k = some [] ∨
    visibleAfter zipInsertKey dbEmpty (buildZipcodeDatabaseOps rows) k
      = (buildZipcodeDatabase dbEmpty rows).table := by
  match k with
  | 0 => exact .inl rfl
  | 1 => exact .inr (.inl rfl)
  | (n + 2) =>
    by_cases hn : n ≤ rows.length
    · refine .inr (.inl ?_)
      simp only [visibleAfter, buildZipcodeDatabaseOps, List.take_succ_cons, runOps,
        List.foldl_cons]
      rw [List.take_append_of_le_length (by simpa using hn), ← List.map_take]
      exact (insertRun_table zipInsertKey (rows.take n)
        { table := some [], txBuf := some [] } rfl).1
    · refine .inr (.inr ?_)
      have hlen : (buildZipcodeDatabaseOps rows).length ≤ n + 2 := by
        simp only [buildZipcodeDatabaseOps, List.length_cons, List.length_append,
          List.length_map, List.length_nil]
        omega
      rw [visibleAfter, List.take_of_length_le hlen]
      rfl

/-- The saved record keeps the name of the port being saved. -/
theorem savedPortRecord_name (p : PortRow) (now : ℤ) :
    (savedPortRecord p now).name = p.name := by
  rw [savedPortRecord]
  split <;> rfl

/-- Replacing every row of a given name and then filtering for that
name yields one copy of the replacement per replaced row. -/
theorem filter_map_replace (t : List PortRow) (nm : String) (q : PortRow)
    (hq : q.name = nm) :
    ((t.map fun r => if r.name = nm then q else r).filter fun r => r.name = nm)
      = (t.filter fun r => r.name = nm).map fun _ => q := by
  induction t with
  | nil => rfl
  | cons r rest ih =>
    by_cases h : r.name = nm
    · simp [h, ih, hq]
    · simp [h, ih]

/-- The record returned by SavePort is the saved record, in both the
conflict and the insert branch. -/
theorem SavePort_snd (t : List PortRow) (p : PortRow) (now : ℤ) :
    (SavePort t p now).2 = savedPortRecord p now := by
  simp only [SavePort]
  split <;> rfl

/-- Single-save characterization: when the table holds at most one row
of the given name, the table after SavePort holds exactly one, namely
the saved record. -/
theorem SavePort_filter (t : List PortRow) (p : PortRow) (now : ℤ)
    (h : (t.filter fun r => r.name = p.name).length ≤ 1) :
    ((SavePort t p now).1.filter fun r => r.name = p.name)
      = [savedPortRecord p now] := by
  have hqn : (savedPortRecord p now).name = p.name := savedPortRecord_name p now
  simp only [SavePort, hqn]
  by_cases hany : t.any (fun r => r.name = p.name) = true
  · rw [if_pos hany]
    simp only
    rw [filter_map_replace t p.name (savedPortRecord p now) hqn]
    obtain ⟨r0, hr0t, hr0n⟩ := List.any_eq_true.mp hany
    have hr0f : r0 ∈ t.filter fun r => r.name = p.name :=
      List.mem_filter.mpr ⟨hr0t, hr0n⟩
    have hpos : 0 < (t.filter fun r => r.name = p.name).length :=
      List.length_pos.mpr (List.ne_nil_of_mem hr0f)
    have hone : (t.filter fun r => r.name = p.name).length = 1 := by omega
    obtain ⟨x, hx⟩ := List.length_eq_one.mp hone
    rw [hx]
    rfl
  · rw [if_neg hany]
    simp only
    rw [List.filter_append]
    have hft : (t.filter fun r => r.name = p.name) = [] := by
      rw [List.filter_eq_nil_iff]
      intro r hrt hc
      exact hany (List.any_eq_true.mpr ⟨r, hrt, hc⟩)
    rw [hft]
    simp [hqn]

/-- C8.  Saving p1 and then p2 with the same name leaves exactly one
stored row with that name, and that row is the record actually saved
for p2: all upserted columns carry the values of p2 (with a zero
CreatedAt defaulted to the save time, exactly as the source mutates
port.CreatedAt before executing the statement); when p2 carries a
nonzero CreatedAt the row is p2 itself.  The duplicate-name save
overwrites in place and never adds a second row. -/
theorem C8_upsert (t : List PortRow) (p1 p2 : PortRow) (now1 now2 : ℤ)
    (hname : p1.name = p2.name)
    (huniq : (t.filter fun r => r.name = p2.name).length ≤ 1) :
    ((SavePort (SavePort t p1 now1).1 p2 now2).1.filter fun r => r.name = p2.name)
      = [savedPortRecord p2 now2] ∧
    (SavePort (SavePort t p1 now1).1 p2 now2).2 = savedPortRecord p2 now2 ∧
    (p2.createdAt ≠ 0 →
      ((SavePort (SavePort t p1 now1).1 p2 now2).1.filter fun r => r.name = p2.name)
        = [p2]) := by
  have h1 : ((SavePort t p1 now1).1.filter fun r => r.name = p1.name)
      = [savedPortRecord p1 now1] :=
    SavePort_filter t p1 now1 (by rw [hname]; exact huniq)
  have h1len : ((SavePort t p1 now1).1.filter fun r => r.name = p2.name).length ≤ 1 := by
    rw [← hname, h1]
    simp
  have hmain := SavePort_filter (SavePort t p1 now1).1 p2 now2 h1len
  refine ⟨hmain, SavePort_snd _ p2 now2, ?_⟩
  · intro hcz
    rw [hmain, savedPortRecord, if_neg hcz]

/-- C8, witness: two concrete saves of the same port name with
different fields against the empty table. -/
theorem C8_upsert_witness :
    samplePort1.name = samplePort2.name ∧
    (([] : List PortRow).filter fun r => r.name = samplePort2.name).length ≤ 1 ∧
    ((SavePort (SavePort [] samplePort1 0).1 samplePort2 0).1.filter
        fun r => r.name = samplePort2.name) = [savedPortRecord samplePort2 0] ∧
    (samplePort2.createdAt ≠ 0 →
      ((SavePort (SavePort [] samplePort1 0).1 samplePort2 0).1.filter
        fun r => r.name = samplePort2.name) = [samplePort2]) :=
  ⟨rfl, by simp,
    (C8_upsert [] samplePort1 samplePort2 0 0 rfl (by simp)).1,
    (C8_upsert [] samplePort1 samplePort2 0 0 rfl (by simp)).2.2⟩
